import Mathlib

/-!
Verification of the request governor of the `sans` library
(`sans/limiter.py` and `sans/_lock.py`).

The development shallowly embeds the core of the library:

* the header-parsing helper `_get_as_int` (with a model of Python's
  `int(str)` constructor and of httpx's case-insensitive header lookup),
* the response hook `RateLimiter._response_hook`,
* the deferred-release lock `ResetLock` as a state machine,
* the retry/escalation driver `RateLimiter.sync_auth_flow`
  (`async_auth_flow` is structurally identical, with `anyio.sleep` in
  place of `time.sleep`) as an executable interpreter over a script of
  responses, an abstract monotonic clock and an explicit stream of
  random draws.

Times and delays are rationals; header values are strings parsed to
integers exactly as the source parses them.
-/

namespace Sans

/-! ### Python `int(str)` -/

/-- Value of an ASCII decimal digit, `none` for any other character. -/
def pyDigit? (c : Char) : Option Nat :=
  if '0' ≤ c ∧ c ≤ '9' then some (c.toNat - '0'.toNat) else none

/-- Digit-run scanner for Python's `int(str)`: one or more decimal digits
with single underscores permitted between digits.  The Boolean flag
records whether a digit is required next (initially, and after an
underscore). -/
def pyDigitsGo : Bool → Nat → List Char → Option Nat
  | u, acc, [] => if u then none else some acc
  | u, acc, c :: cs =>
    if c = '_' then (if u then none else pyDigitsGo true acc cs)
    else
      match pyDigit? c with
      | some d => pyDigitsGo false (10 * acc + d) cs
      | none => none

/-- Digits of a Python integer literal body. -/
def pyDigits? (cs : List Char) : Option Nat := pyDigitsGo true 0 cs

/-- Strip leading and trailing whitespace. -/
def pyStrip (cs : List Char) : List Char :=
  ((cs.dropWhile Char.isWhitespace).reverse.dropWhile Char.isWhitespace).reverse

/-- Model of Python's `int` constructor applied to a string: optional
surrounding whitespace, an optional sign, then decimal digits with single
underscores allowed between digits; anything else raises `ValueError`,
modelled as `none`. -/
def pyInt? (s : String) : Option Int :=
  match pyStrip s.toList with
  | '+' :: cs => (pyDigits? cs).map (fun n => (n : Int))
  | '-' :: cs => (pyDigits? cs).map (fun n => -(n : Int))
  | cs => (pyDigits? cs).map (fun n => (n : Int))

/-! ### Headers and `_get_as_int` -/

/-- A response or request header map, as a list of name/value pairs. -/
abbrev Headers := List (String × String)

/-- ASCII lowercase of a character, as applied by httpx to header names. -/
def lowerChar (c : Char) : Char :=
  if 'A' ≤ c ∧ c ≤ 'Z' then Char.ofNat (c.toNat + 32) else c

/-- Case-insensitive header-name comparison, as used by httpx (header
names are ASCII). -/
def keyEq (a b : String) : Bool :=
  a.toList.map lowerChar == b.toList.map lowerChar

/-- Case-insensitive header lookup; httpx's `Headers.__getitem__` joins the
values of repeated headers with a comma and a space and raises `KeyError`
(here `none`) when no header matches. -/
def headerGet? (hs : Headers) (key : String) : Option String :=
  match (hs.filter fun p => keyEq p.1 key).map Prod.snd with
  | [] => none
  | vs => some (String.intercalate ", " vs)

/-- Faithful to `limiter._get_as_int`: `int(mapping[key])` with `KeyError`
and `ValueError` both falling back to the default. -/
def get_as_int (hs : Headers) (key : String) (default : Int) : Int :=
  match headerGet? hs key with
  | none => default
  | some v => (pyInt? v).getD default

/-- Decision taken by `RateLimiter._response_hook`: `some delay` when the
hook calls `RateLimiter._lock.defer(delay)`, `none` when it returns
without deferring.  The source reads `RateLimit-Remaining` with default 1
and returns early on any nonzero value, then reads `RateLimit-Reset` with
default 0 as the deferral delay. -/
def response_hook_defer (hs : Headers) : Option Int :=
  let xrlr := get_as_int hs "RateLimit-Remaining" 1
  if xrlr ≠ 0 then none
  else some (get_as_int hs "RateLimit-Reset" 0)

/-! ### The `ResetLock` state machine

State of one `_lock.ResetLock`: whether the underlying `threading.Lock`
is held, the FIFO deque of waiter wake-callbacks (represented by caller
ids), and the target monotonic time of the armed `_ThreadTimer`, if a
deferred release is pending. -/

structure ResetLock where
  held : Bool
  waiters : List Nat
  deferred : Option ℚ
  deriving DecidableEq

namespace ResetLock

/-- Faithful to `ResetLock.locked`. -/
def locked (s : ResetLock) : Bool := s.held

/-- Faithful to `ResetLock.defer`: a no-op when the lock is not held,
otherwise the `_deferred` setter cancels any previously armed timer and
starts `_ThreadTimer(delay, self._release)`, which fires no earlier than
`now + delay`. -/
def defer (s : ResetLock) (now delay : ℚ) : ResetLock :=
  if s.held = false then s
  else { s with deferred := some (now + delay) }

/-- Faithful to `ResetLock.release`: returns immediately while a deferred
release is pending (`self.deferred is not None`); otherwise wakes the
first waiter, which immediately re-acquires the freed lock, or marks the
lock free when no waiter is queued. -/
def release (s : ResetLock) : ResetLock :=
  if s.deferred.isSome then s
  else
    match s.waiters with
    | [] => { s with held := false }
    | _ :: ws => { s with held := true, waiters := ws }

/-- Faithful to `ResetLock._release`, the callback run by the armed timer
when it fires: clears the deferred state, wakes the next waiter (which
re-acquires) or frees the lock. -/
def timer_release (s : ResetLock) : ResetLock :=
  match s.waiters with
  | [] => { held := false, waiters := [], deferred := none }
  | _ :: ws => { held := true, waiters := ws, deferred := none }

/-- Timing model of `threading.Timer`: the armed timer can only fire at a
time no earlier than its target. -/
def timerCanFire (s : ResetLock) (t : ℚ) : Prop :=
  ∃ target, s.deferred = some target ∧ target ≤ t

end ResetLock

/-! ### The `sync_auth_flow` / `async_auth_flow` driver

The driver is modelled as an executable interpreter for one logical call.
The transport is a script of responses, handed to the generator one per
`yield`; `time.monotonic()` is an abstract rational clock advanced by the
sleeps the source performs; `random.random()` is an explicit stream of
draws.  The process-wide `RateLimiter._lock` and `TelegramLimiter._lock`
are tracked from the viewpoint of this single flow; re-entering a
`ResetLock` this flow already holds blocks forever (the lock is not
reentrant: `__enter__` queues the caller and waits for a release that
only the blocked holder could perform), which the interpreter reports as
a distinguished `deadlock` outcome. -/

/-- One scripted response: its status code, headers, and whether its URL
host equals the governed API host (`response.url.host == API_URL.host`). -/
structure Resp where
  status : Int
  headers : Headers
  hostMatches : Bool
  deriving DecidableEq

/-- Observable state of one flow: the monotonic clock, this flow's view
of the two process-wide locks (`RateLimiter._lock` and
`TelegramLimiter._lock`), the armed deferral target on the API lock,
`TelegramLimiter._last_request`, the local `is_telegram_limiter` flag,
the position in the current `_backoff[:6]` iterator, the number of
`random.random()` draws consumed, and logs of every sleep duration and of
the time of every yield of the request to the transport. -/
structure FlowState where
  now : ℚ
  apiHeld : Bool
  apiDeferred : Option ℚ
  tgHeld : Bool
  lastRequest : Option ℚ
  isTelegram : Bool
  backoffIdx : Nat
  randCtr : Nat
  sleeps : List ℚ
  dispatches : List ℚ
  deriving DecidableEq

/-- Environment of a run: the stream of `random.random()` draws, the time
spent acquiring `TelegramLimiter._lock` during escalation, and the value
of `TelegramLimiter._last_request` observed after that acquisition (other
tasks may have dispatched meanwhile). -/
structure Env where
  us : Nat → ℚ
  tgAcqDelay : ℚ
  lastDuring : Option ℚ

/-- Result of running one flow against a script. -/
inductive Outcome where
  | done (status : Int) (st : FlowState)
  | deadlock (st : FlowState)
  | agentError (st : FlowState)
  | scriptEnded (st : FlowState)
  deriving DecidableEq

/-- Final state carried by an outcome. -/
def Outcome.state : Outcome → FlowState
  | .done _ st => st
  | .deadlock st => st
  | .agentError st => st
  | .scriptEnded st => st

/-- Status returned to the caller, when the flow completed normally. -/
def Outcome.doneStatus : Outcome → Option Int
  | .done s _ => some s
  | _ => none

/-- Whether the flow raised `AgentNotSetError`. -/
def Outcome.isAgentError : Outcome → Bool
  | .agentError _ => true
  | _ => false

namespace FlowState

/-- Model of `time.sleep(d)` / `anyio.sleep(d)`: the clock advances by
`d` and the duration is logged. -/
def sleep (st : FlowState) (d : ℚ) : FlowState :=
  { st with now := st.now + d, sleeps := st.sleeps ++ [d] }

/-- Model of `lock_stack.enter_context(RateLimiter._lock)` from this
flow: acquiring the free lock succeeds; re-entering the non-reentrant
lock this flow already holds blocks forever (`none`). -/
def enterApiLock (st : FlowState) : Option FlowState :=
  if st.apiHeld then none else some { st with apiHeld := true }

/-- Model of `lock_stack.close()` and of the stack unwinding on return:
`ResetLock.__exit__` calls `release()` on each entered lock, which is a
no-op on the API lock while a deferred release is pending. -/
def releaseLocks (st : FlowState) : FlowState :=
  { st with
    apiHeld := if st.apiDeferred.isSome then st.apiHeld else false,
    tgHeld := false }

/-- Model of resuming `auth_flow` with the final response
(`flow.send(.)`): when the response's URL host is the API host, the
response hook runs and may arm a deferred release on the API lock
(`defer` is a no-op when the lock is not held). -/
def hookDefer (st : FlowState) (r : Resp) : FlowState :=
  if r.hostMatches then
    match response_hook_defer r.headers with
    | some d =>
      if st.apiHeld then { st with apiDeferred := some (st.now + (d : ℚ)) } else st
    | none => st
  else st

end FlowState

/-- Retry delay computed by the escalation branch of the 429 handler
(`limiter.py`, the `remaining and not is_telegram_limiter` branch):
`before` is `time.monotonic()` read before the lock stack was closed,
`now` is the clock after `TelegramLimiter._lock` was re-acquired, `last`
is `TelegramLimiter._last_request` at that point, and `retry` is the
integer parsed from the 429's `Retry-After` header.  When a truthy
`_last_request` is newer than `before`, the tier is chosen by comparing
`retry` against 30; otherwise the 429's own retry-after value is used,
measured from `before`. -/
def escalation_wait (retry : Int) (before now : ℚ) (last : Option ℚ) : ℚ :=
  match last with
  | some l =>
    if l ≠ 0 ∧ before < l then
      if 30 < retry then l + 180 - now else l + 30 - now
    else before + (retry : ℚ) - now
  | none => before + (retry : ℚ) - now

/-- Model of falling through to `flow.send(_sent)`: the response hook
runs (possibly arming a deferral), `StopIteration` sets
`TelegramLimiter._last_request = time.monotonic()` when the flow is a
Telegram limiter, the response is returned to the caller, and the
`ExitStack` unwinds, releasing the locks this flow entered. -/
def finishFlow (st : FlowState) (r : Resp) : Outcome :=
  let st := st.hookDefer r
  let st := if st.isTelegram then { st with lastRequest := some st.now } else st
  .done r.status st.releaseLocks

/-- The retry loop of `sync_auth_flow` (`while True:` over
`_sent = yield _yield`), one scripted response per iteration.  Each
iteration first yields the request (logged as a dispatch), then follows
the source's classification: 429 with nonzero `Retry-After` either
escalates to the Telegram lock (nonzero `Ratelimit-Remaining` read with
default 0, and not already a Telegram limiter) or sleeps the retry-after
delay, and in both cases re-enters the API lock and resets the backoff;
500/502 draws the next backoff delay `random() * 2 ** i` for `i < 6` and
retries, falling through when the six draws are exhausted; everything
else resumes `auth_flow` with the response and returns it. -/
def runLoop (env : Env) : List Resp → FlowState → Outcome
  | [], st => .scriptEnded st
  | r :: rest, st₀ =>
    let st := { st₀ with dispatches := st₀.dispatches ++ [st₀.now] }
    if r.status = 429 then
      let retry := get_as_int r.headers "Retry-After" 0
      if retry ≠ 0 then
        let remaining := get_as_int r.headers "Ratelimit-Remaining" 0
        if remaining ≠ 0 ∧ st.isTelegram = false then
          let before := st.now
          let st := st.releaseLocks
          let st := { st with
            now := st.now + env.tgAcqDelay, tgHeld := true,
            lastRequest := env.lastDuring, isTelegram := true }
          let st := st.sleep (max (escalation_wait retry before st.now st.lastRequest) 0)
          match st.enterApiLock with
          | none => .deadlock st
          | some st => runLoop env rest { st with backoffIdx := 0 }
        else
          let st := st.sleep (max (retry : ℚ) 0)
          match st.enterApiLock with
          | none => .deadlock st
          | some st => runLoop env rest { st with backoffIdx := 0 }
      else finishFlow st r
    else if r.status = 500 ∨ r.status = 502 then
      if st.backoffIdx < 6 then
        let st' := st.sleep (env.us st.randCtr * 2 ^ st.backoffIdx)
        runLoop env rest { st' with backoffIdx := st.backoffIdx + 1, randCtr := st.randCtr + 1 }
      else finishFlow st r
    else finishFlow st r

/-- Full model of `RateLimiter.sync_auth_flow` (and of the structurally
identical `async_auth_flow`) for one logical call: when the request's
`Host` header equals the API netloc, the Telegram pre-dispatch gate runs
first for a `TelegramLimiter` (acquire `TelegramLimiter._lock`, then
sleep `max(_last_request + recruitment_delay - monotonic(), 0)` when a
last request is recorded) and `RateLimiter._lock` is acquired; then
`next(flow)` runs the request hook, raising `AgentNotSetError` when the
request URL targets the API host and the process-wide agent is empty;
then the retry loop consumes the scripted responses. -/
def sync_auth_flow (agent : String) (recruitment_delay : Option ℚ)
    (hostMatches urlHostMatches : Bool) (start : ℚ) (last0 : Option ℚ)
    (env : Env) (script : List Resp) : Outcome :=
  let st : FlowState :=
    { now := start, apiHeld := false, apiDeferred := none, tgHeld := false,
      lastRequest := last0, isTelegram := recruitment_delay.isSome,
      backoffIdx := 0, randCtr := 0, sleeps := [], dispatches := [] }
  let st :=
    if hostMatches then
      let st :=
        match recruitment_delay with
        | some d =>
          let st := { st with tgHeld := true }
          match st.lastRequest with
          | some l => st.sleep (max (l + d - st.now) 0)
          | none => st
        | none => st
      { st with apiHeld := true }
    else st
  if urlHostMatches = true ∧ agent = "" then .agentError st.releaseLocks
  else runLoop env script st

/-- Minimum inter-dispatch interval fixed by `TelegramLimiter.__init__`:
180 seconds for the recruitment tier, 30 otherwise. -/
def telegram_recruitment_delay (recruitment : Bool) : ℚ :=
  if recruitment then 180 else 30

/-! ### Claims about the `ResetLock` primitive -/

/-- C2: after `defer(d)` is called at time `now` while the lock is held,
every `release()` before the timer fires is a no-op — the lock stays
held and no waiter is woken — and only the timer's own firing, which
cannot happen before `now + d`, clears the deferral and frees the lock
or hands it to the next waiter, with no external call required. -/
theorem claim_c2_deferred_release (s : ResetLock) (now d : ℚ) (h : s.held = true) :
    (∀ n : Nat, ResetLock.release^[n] (s.defer now d) = s.defer now d) ∧
    (s.defer now d).held = true ∧
    (s.defer now d).waiters = s.waiters ∧
    (s.defer now d).deferred = some (now + d) ∧
    (∀ t : ℚ, (s.defer now d).timerCanFire t → now + d ≤ t) ∧
    ((s.defer now d).timer_release).deferred = none ∧
    ((s.defer now d).timer_release).held = !s.waiters.isEmpty ∧
    ((s.defer now d).timer_release).waiters = s.waiters.tail := by
  have hdef : s.defer now d = { s with deferred := some (now + d) } := by
    simp [ResetLock.defer, h]
  have hrel : ResetLock.release (s.defer now d) = s.defer now d := by
    rw [hdef]; simp [ResetLock.release]
  refine ⟨?_, ?_, ?_, ?_, ?_, ?_, ?_, ?_⟩
  · intro n
    induction n with
    | zero => rfl
    | succ k ih => rw [Function.iterate_succ_apply', ih, hrel]
  · rw [hdef]; exact h
  · rw [hdef]
  · rw [hdef]
  · intro t ht
    rcases ht with ⟨target, htar, hle⟩
    rw [hdef] at htar
    simp only [Option.some.injEq] at htar
    exact htar ▸ hle
  · rw [hdef]; cases s.waiters <;> simp [ResetLock.timer_release]
  · rw [hdef]; cases s.waiters <;> simp [ResetLock.timer_release]
  · rw [hdef]; cases s.waiters <;> simp [ResetLock.timer_release]

/-- Witness for C2 at a concrete held lock with one queued waiter. -/
theorem claim_c2_witness :
    (∀ n : Nat, ResetLock.release^[n] (ResetLock.defer ⟨true, [7], none⟩ 0 5)
        = ResetLock.defer ⟨true, [7], none⟩ 0 5) ∧
    (ResetLock.defer ⟨true, [7], none⟩ 0 5).held = true ∧
    (ResetLock.defer ⟨true, [7], none⟩ 0 5).waiters = [7] ∧
    (ResetLock.defer ⟨true, [7], none⟩ 0 5).deferred = some (0 + 5) ∧
    (∀ t : ℚ, (ResetLock.defer ⟨true, [7], none⟩ 0 5).timerCanFire t → 0 + 5 ≤ t) ∧
    ((ResetLock.defer ⟨true, [7], none⟩ 0 5).timer_release).deferred = none ∧
    ((ResetLock.defer ⟨true, [7], none⟩ 0 5).timer_release).held = true ∧
    ((ResetLock.defer ⟨true, [7], none⟩ 0 5).timer_release).waiters = [] :=
  claim_c2_deferred_release ⟨true, [7], none⟩ 0 5 rfl

/-- C10: calling `defer(d)` on a `ResetLock` that is not held returns
without arming a timer and leaves the lock unheld with no deferral
pending (the source returns early on `not self.locked()`). -/
theorem claim_c10_defer_unheld (s : ResetLock) (now d : ℚ)
    (h : s.held = false) (h2 : s.deferred = none) :
    s.defer now d = s ∧ (s.defer now d).held = false ∧ (s.defer now d).deferred = none := by
  have hid : s.defer now d = s := by simp [ResetLock.defer, h]
  exact ⟨hid, by rw [hid, h], by rw [hid, h2]⟩

/-- Witness for C10 on a fresh unheld lock. -/
theorem claim_c10_witness :
    ResetLock.defer ⟨false, [], none⟩ 3 9 = ⟨false, [], none⟩ ∧
    (ResetLock.defer ⟨false, [], none⟩ 3 9).held = false ∧
    (ResetLock.defer ⟨false, [], none⟩ 3 9).deferred = none :=
  claim_c10_defer_unheld ⟨false, [], none⟩ 3 9 rfl rfl

/-! ### Claims about header handling -/

/-- Reading `RateLimit-Remaining` with default 1 yields 0 exactly when the
header is present and parses to the integer 0. -/
theorem get_as_int_remaining_zero (hs : Headers) :
    get_as_int hs "RateLimit-Remaining" 1 = 0 ↔
      (headerGet? hs "RateLimit-Remaining").bind pyInt? = some 0 := by
  unfold get_as_int
  cases hv : headerGet? hs "RateLimit-Remaining" with
  | none => simp
  | some v =>
    cases hp : pyInt? v with
    | none => simp [hp]
    | some n => simp [hp]

/-- C3: the response hook arms a deferred release exactly when the
`RateLimit-Remaining` header parses to zero, the armed delay is the
parsed `RateLimit-Reset` value with default 0, and when no deferral is
armed the slot is released normally as the call exits, while an armed
deferral keeps the slot held past the exit with target `now + delay`. -/
theorem claim_c3_response_hook (hs : Headers) :
    ((response_hook_defer hs).isSome ↔
      (headerGet? hs "RateLimit-Remaining").bind pyInt? = some 0) ∧
    (∀ d : Int, response_hook_defer hs = some d → d = get_as_int hs "RateLimit-Reset" 0) ∧
    (∀ st : FlowState, st.apiHeld = true → st.apiDeferred = none →
      (finishFlow st ⟨200, hs, true⟩).state.apiHeld = (response_hook_defer hs).isSome ∧
      (finishFlow st ⟨200, hs, true⟩).state.apiDeferred
        = (response_hook_defer hs).map (fun d => st.now + (d : ℚ))) := by
  refine ⟨?_, ?_, ?_⟩
  · rw [← get_as_int_remaining_zero]
    unfold response_hook_defer
    by_cases hz : get_as_int hs "RateLimit-Remaining" 1 = 0 <;> simp [hz]
  · intro d hd
    unfold response_hook_defer at hd
    by_cases hz : get_as_int hs "RateLimit-Remaining" 1 = 0 <;> simp [hz] at hd
    omega
  · intro st h1 h2
    cases hr : response_hook_defer hs with
    | none =>
      by_cases ht : st.isTelegram <;>
        simp [finishFlow, FlowState.hookDefer, FlowState.releaseLocks, Outcome.state,
          hr, h1, h2, ht]
    | some dd =>
      by_cases ht : st.isTelegram <;>
        simp [finishFlow, FlowState.hookDefer, FlowState.releaseLocks, Outcome.state,
          hr, h1, h2, ht]

/-- Witness for C3 on the spec's own example headers: remaining 0, reset 5. -/
theorem claim_c3_witness :
    ((response_hook_defer [("RateLimit-Remaining", "0"), ("RateLimit-Reset", "5")]).isSome ↔
      (headerGet? [("RateLimit-Remaining", "0"), ("RateLimit-Reset", "5")]
          "RateLimit-Remaining").bind pyInt? = some 0) ∧
    (∀ d : Int,
      response_hook_defer [("RateLimit-Remaining", "0"), ("RateLimit-Reset", "5")] = some d →
      d = get_as_int [("RateLimit-Remaining", "0"), ("RateLimit-Reset", "5")]
            "RateLimit-Reset" 0) ∧
    ((finishFlow ⟨0, true, none, false, none, false, 0, 0, [], []⟩
        ⟨200, [("RateLimit-Remaining", "0"), ("RateLimit-Reset", "5")], true⟩).state.apiHeld
      = (response_hook_defer [("RateLimit-Remaining", "0"), ("RateLimit-Reset", "5")]).isSome ∧
     (finishFlow ⟨0, true, none, false, none, false, 0, 0, [], []⟩
        ⟨200, [("RateLimit-Remaining", "0"), ("RateLimit-Reset", "5")], true⟩).state.apiDeferred
      = (response_hook_defer [("RateLimit-Remaining", "0"), ("RateLimit-Reset", "5")]).map
          (fun d => (0 : ℚ) + (d : ℚ))) :=
  ⟨(claim_c3_response_hook _).1, (claim_c3_response_hook _).2.1,
    (claim_c3_response_hook _).2.2 ⟨0, true, none, false, none, false, 0, 0, [], []⟩ rfl rfl⟩

/-- The 429 handler's `Ratelimit-Remaining` lookup and the response
hook's `RateLimit-Remaining` lookup hit the same headers: httpx header
names are case-insensitive. -/
theorem headerGet?_remaining_key (hs : Headers) :
    headerGet? hs "RateLimit-Remaining" = headerGet? hs "Ratelimit-Remaining" := by
  have hkey : "RateLimit-Remaining".toList.map lowerChar
      = "Ratelimit-Remaining".toList.map lowerChar := by decide
  unfold headerGet? keyEq
  rw [hkey]

/-- C9 counterexample: the 429 escalation check (`limiter.py` line 144)
reads `Ratelimit-Remaining` with default 0, not 1.  With the header
absent the check sees 0 and the escalation branch is not taken (the flow
sleeps and re-enters the held lock), while the explicit value `"1"`
triggers escalation and lets the call complete; had absence behaved
exactly as the integer 1, the two runs would agree. -/
theorem claim_c9_counterexample :
    get_as_int [("Retry-After", "2")] "Ratelimit-Remaining" 0 = 0 ∧
    get_as_int [("Retry-After", "2"), ("Ratelimit-Remaining", "1")]
      "Ratelimit-Remaining" 0 = 1 ∧
    (sync_auth_flow "x" none true true 0 none ⟨fun _ => 0, 0, none⟩
        [⟨429, [("Retry-After", "2")], true⟩, ⟨200, [], true⟩]).doneStatus = none ∧
    (sync_auth_flow "x" none true true 0 none ⟨fun _ => 0, 0, none⟩
        [⟨429, [("Retry-After", "2"), ("Ratelimit-Remaining", "1")], true⟩,
          ⟨200, [], true⟩]).doneStatus = some 200 := by
  have h1 : get_as_int [("Retry-After", "2")] "Retry-After" 0 = 2 := by decide
  have h2 : get_as_int [("Retry-After", "2")] "Ratelimit-Remaining" 0 = 0 := by decide
  have h3 : get_as_int [("Retry-After", "2"), ("Ratelimit-Remaining", "1")]
      "Retry-After" 0 = 2 := by decide
  have h4 : get_as_int [("Retry-After", "2"), ("Ratelimit-Remaining", "1")]
      "Ratelimit-Remaining" 0 = 1 := by decide
  have h5 : response_hook_defer [] = none := by decide
  refine ⟨h2, h4, ?_, ?_⟩ <;>
    simp only [sync_auth_flow, runLoop, finishFlow, FlowState.sleep, FlowState.enterApiLock,
      FlowState.releaseLocks, FlowState.hookDefer, escalation_wait, Outcome.doneStatus,
      Outcome.state, h1, h2, h3, h4, h5, Option.isSome_none, Option.isSome_some,
      ne_eq, String.reduceEq, Int.reduceEq, reduceIte, Bool.false_eq_true, and_true,
      and_false, and_self, not_false_eq_true, not_true_eq_false, List.nil_append,
      ite_true, ite_false]
  all_goals norm_num

/-- C9 amended: an absent or malformed `RateLimit-Remaining` behaves as
the integer 1 in the response hook's read (default 1), but as the
integer 0 in the 429 escalation check's read (default 0), so escalation
never triggers without an explicitly parseable nonzero remaining. -/
theorem claim_c9_remaining_defaults (hs : Headers)
    (h : (headerGet? hs "Ratelimit-Remaining").bind pyInt? = none) :
    get_as_int hs "RateLimit-Remaining" 1 = 1 ∧
    get_as_int hs "Ratelimit-Remaining" 0 = 0 := by
  unfold get_as_int
  rw [headerGet?_remaining_key]
  cases hv : headerGet? hs "Ratelimit-Remaining" with
  | none => simp
  | some v =>
    rw [hv] at h
    simp only [Option.some_bind] at h
    simp [h]

/-- Witness for the amended C9 on headers without any remaining-quota
header. -/
theorem claim_c9_witness :
    (headerGet? [("Retry-After", "2")] "Ratelimit-Remaining").bind pyInt? = none ∧
    get_as_int [("Retry-After", "2")] "RateLimit-Remaining" 1 = 1 ∧
    get_as_int [("Retry-After", "2")] "Ratelimit-Remaining" 0 = 0 :=
  ⟨by decide, claim_c9_remaining_defaults [("Retry-After", "2")] (by decide)⟩

/-! ### Claims about the retry driver -/

/-- C1, evaluated at the failing input: an API-host request whose first
response is a 429 with `Retry-After: 2` and `Ratelimit-Remaining: 0`
(so the 429 is not escalated).  The source sleeps the retry-after delay
holding the slot, but then re-enters `RateLimiter._lock`
(`lock_stack.enter_context`, the line commented `re-enter the API lock`)
while this very flow still holds that non-reentrant lock — nothing
released it on this path — and blocks forever; the resend promised by
the claim never happens.  The final state records the single dispatch at
time 0 and the one sleep of 2 time units, with the lock still held. -/
theorem claim_c1_429_retry_deadlocks :
    sync_auth_flow "x" none true true 0 none ⟨fun _ => 0, 0, none⟩
      [⟨429, [("Retry-After", "2"), ("Ratelimit-Remaining", "0")], true⟩, ⟨200, [], true⟩]
      = .deadlock ⟨2, true, none, false, none, false, 0, 0, [2], [0]⟩ := by
  have h1 : get_as_int [("Retry-After", "2"), ("Ratelimit-Remaining", "0")]
      "Retry-After" 0 = 2 := by decide
  have h2 : get_as_int [("Retry-After", "2"), ("Ratelimit-Remaining", "0")]
      "Ratelimit-Remaining" 0 = 0 := by decide
  simp only [sync_auth_flow, runLoop, FlowState.sleep, FlowState.enterApiLock,
    FlowState.releaseLocks, h1, h2, Option.isSome_none, ne_eq, String.reduceEq,
    Int.reduceEq, reduceIte, Bool.false_eq_true, and_true, and_false, and_self,
    not_false_eq_true, not_true_eq_false, List.nil_append, ite_true, ite_false]
  norm_num

/-- C8: with the process-wide agent string empty, a request targeting the
governed API host raises `AgentNotSetError` before any request is
dispatched and before any retry logic runs, for every script, every
prior state and both limiter variants; the stack unwinds so neither
slot is left held. -/
theorem claim_c8_agent_not_set (rd : Option ℚ) (start : ℚ) (last0 : Option ℚ)
    (env : Env) (script : List Resp) :
    (sync_auth_flow "" rd true true start last0 env script).isAgentError = true ∧
    (sync_auth_flow "" rd true true start last0 env script).state.dispatches = [] ∧
    (sync_auth_flow "" rd true true start last0 env script).state.apiHeld = false ∧
    (sync_auth_flow "" rd true true start last0 env script).state.tgHeld = false := by
  cases rd with
  | none =>
    simp [sync_auth_flow, FlowState.releaseLocks, Outcome.isAgentError, Outcome.state]
  | some d =>
    cases last0 with
    | none =>
      simp [sync_auth_flow, FlowState.releaseLocks, Outcome.isAgentError, Outcome.state]
    | some l =>
      simp [sync_auth_flow, FlowState.sleep, FlowState.releaseLocks, Outcome.isAgentError,
        Outcome.state]

/-- C6 counterexample: a 429 whose `Retry-After` header is absent is
returned to the caller as-is — one dispatch, no sleep, no retry — in
contradiction with the claim that a 429 is never returned without a
retry.  The source's `if retry:` guard skips the whole retry branch
whenever `Retry-After` is absent, zero or malformed. -/
theorem claim_c6_counterexample :
    sync_auth_flow "x" none true true 0 none ⟨fun _ => 0, 0, none⟩ [⟨429, [], true⟩]
      = .done 429 ⟨0, false, none, false, none, false, 0, 0, [], [0]⟩ := by
  have h1 : get_as_int ([] : Headers) "Retry-After" 0 = 0 := by decide
  have h5 : response_hook_defer [] = none := by decide
  simp only [sync_auth_flow, runLoop, finishFlow, FlowState.sleep, FlowState.enterApiLock,
    FlowState.releaseLocks, FlowState.hookDefer, Outcome.state, h1, h5,
    Option.isSome_none, ne_eq, String.reduceEq, Int.reduceEq, reduceIte,
    Bool.false_eq_true, and_true, and_false, and_self, not_false_eq_true,
    not_true_eq_false, List.nil_append, ite_true, ite_false]

/-- C6 amended: a 429 triggers the retry branch exactly when its
`Retry-After` header parses to a nonzero integer.  When it does not, the
429 is handed back to the caller as-is (the flow finishes on it, with no
further dispatch).  When it does, the retry decision is unbounded: it
never consults the backoff budget — the observable behaviour is the same
for every backoff position, and the budget is reset for the retried
request. -/
theorem claim_c6_429_retry_iff_retry_after (env : Env) (rest : List Resp)
    (st : FlowState) (hs : Headers) (hm : Bool) :
    (get_as_int hs "Retry-After" 0 = 0 →
      runLoop env (⟨429, hs, hm⟩ :: rest) st
        = finishFlow { st with dispatches := st.dispatches ++ [st.now] } ⟨429, hs, hm⟩ ∧
      (runLoop env (⟨429, hs, hm⟩ :: rest) st).doneStatus = some 429) ∧
    (get_as_int hs "Retry-After" 0 ≠ 0 → ∀ k l : Nat,
      (runLoop env (⟨429, hs, hm⟩ :: rest) { st with backoffIdx := k }).doneStatus
        = (runLoop env (⟨429, hs, hm⟩ :: rest) { st with backoffIdx := l }).doneStatus ∧
      (runLoop env (⟨429, hs, hm⟩ :: rest) { st with backoffIdx := k }).state.sleeps
        = (runLoop env (⟨429, hs, hm⟩ :: rest) { st with backoffIdx := l }).state.sleeps) := by
  constructor
  · intro h
    constructor
    · simp only [runLoop, h, ne_eq, Int.reduceEq, reduceIte, not_true_eq_false]
    · simp only [runLoop, finishFlow, h, ne_eq, Int.reduceEq, reduceIte,
        not_true_eq_false, Outcome.doneStatus]
  · intro h k l
    simp only [runLoop, FlowState.sleep, FlowState.enterApiLock, FlowState.releaseLocks,
      escalation_wait, ne_eq, Int.reduceEq, reduceIte, h, not_false_eq_true, ite_true]
    split_ifs <;>
      simp [Outcome.doneStatus, Outcome.state]

/-- Witness for the amended C6, discharging both directions: a 429
without `Retry-After` finishes with status 429, and with
`Retry-After: 2` the observable result does not depend on the backoff
position. -/
theorem claim_c6_witness :
    (get_as_int ([] : Headers) "Retry-After" 0 = 0 ∧
      (runLoop ⟨fun _ => 0, 0, none⟩ [⟨429, [], true⟩]
          ⟨0, true, none, false, none, false, 0, 0, [], []⟩).doneStatus = some 429) ∧
    (get_as_int [("Retry-After", "2")] "Retry-After" 0 ≠ 0 ∧
      (runLoop ⟨fun _ => 0, 0, none⟩ [⟨429, [("Retry-After", "2")], true⟩]
          ⟨0, true, none, false, none, false, 3, 0, [], []⟩).doneStatus
        = (runLoop ⟨fun _ => 0, 0, none⟩ [⟨429, [("Retry-After", "2")], true⟩]
            ⟨0, true, none, false, none, false, 5, 0, [], []⟩).doneStatus) :=
  ⟨⟨by decide,
    ((claim_c6_429_retry_iff_retry_after ⟨fun _ => 0, 0, none⟩ []
        ⟨0, true, none, false, none, false, 0, 0, [], []⟩ [] true).1 (by decide)).2⟩,
   ⟨by decide,
    ((claim_c6_429_retry_iff_retry_after ⟨fun _ => 0, 0, none⟩ []
        ⟨0, true, none, false, none, false, 0, 0, [], []⟩ [("Retry-After", "2")] true).2
        (by decide) 3 5).1⟩⟩

set_option maxHeartbeats 2000000 in
/-- C4: on a script of six consecutive transient server errors (statuses
from the 500/502 set) followed by a 200, the governor performs exactly
six delayed resends — the i-th delayed by `random() * 2 ** i`, a value
in `[0, 2 ** i)` — and then returns the 200; on a seventh consecutive
500 the backoff iterator is exhausted and the 500 is returned to the
caller as-is, with no further retry. -/
theorem claim_c4_backoff_bound (us : Nat → ℚ) (h : ∀ i, 0 ≤ us i ∧ us i < 1) :
    (sync_auth_flow "x" none true true 0 none ⟨us, 0, none⟩
        [⟨500, [], true⟩, ⟨502, [], true⟩, ⟨500, [], true⟩, ⟨502, [], true⟩,
          ⟨500, [], true⟩, ⟨500, [], true⟩, ⟨200, [], true⟩]).doneStatus = some 200 ∧
    (sync_auth_flow "x" none true true 0 none ⟨us, 0, none⟩
        [⟨500, [], true⟩, ⟨502, [], true⟩, ⟨500, [], true⟩, ⟨502, [], true⟩,
          ⟨500, [], true⟩, ⟨500, [], true⟩, ⟨200, [], true⟩]).state.dispatches.length = 7 ∧
    (sync_auth_flow "x" none true true 0 none ⟨us, 0, none⟩
        [⟨500, [], true⟩, ⟨502, [], true⟩, ⟨500, [], true⟩, ⟨502, [], true⟩,
          ⟨500, [], true⟩, ⟨500, [], true⟩, ⟨200, [], true⟩]).state.sleeps
      = [us 0 * 2 ^ 0, us 1 * 2 ^ 1, us 2 * 2 ^ 2, us 3 * 2 ^ 3, us 4 * 2 ^ 4,
          us 5 * 2 ^ 5] ∧
    (∀ i : Nat, 0 ≤ us i * 2 ^ i ∧ us i * 2 ^ i < 2 ^ i) ∧
    (sync_auth_flow "x" none true true 0 none ⟨us, 0, none⟩
        [⟨500, [], true⟩, ⟨500, [], true⟩, ⟨500, [], true⟩, ⟨500, [], true⟩,
          ⟨500, [], true⟩, ⟨500, [], true⟩, ⟨500, [], true⟩]).doneStatus = some 500 ∧
    (sync_auth_flow "x" none true true 0 none ⟨us, 0, none⟩
        [⟨500, [], true⟩, ⟨500, [], true⟩, ⟨500, [], true⟩, ⟨500, [], true⟩,
          ⟨500, [], true⟩, ⟨500, [], true⟩, ⟨500, [], true⟩]).state.sleeps.length = 6 := by
  have h5 : response_hook_defer [] = none := by decide
  refine ⟨?_, ?_, ?_, ?_, ?_, ?_⟩
  case refine_4 =>
    intro i
    have h2 : (0 : ℚ) < 2 ^ i := by positivity
    refine ⟨mul_nonneg (h i).1 (le_of_lt h2), ?_⟩
    calc us i * 2 ^ i < 1 * 2 ^ i := by
          exact mul_lt_mul_of_pos_right (h i).2 h2
      _ = 2 ^ i := one_mul _
  all_goals
    simp only [sync_auth_flow, runLoop, finishFlow, FlowState.sleep, FlowState.enterApiLock,
      FlowState.releaseLocks, FlowState.hookDefer, Outcome.doneStatus, Outcome.state, h5,
      Option.isSome_none, ne_eq, String.reduceEq, Int.reduceEq, reduceIte,
      Bool.false_eq_true, and_true, and_false, and_self, false_and, not_false_eq_true,
      not_true_eq_false, List.nil_append, ite_true, ite_false, or_true, true_or,
      or_false, false_or, or_self, Nat.reduceLT, List.length_cons, List.length_nil,
      List.cons_append, List.append_nil]
  all_goals norm_num

/-- C7: a secondary-resource call through a `TelegramLimiter` acquires
the secondary slot and, when a last-dispatch timestamp exists, waits
`max(lastDispatch + minInterval - now, 0)` before dispatching, so the
dispatch happens no earlier than `lastDispatch + minInterval`;
`minInterval` is fixed at construction — 180 for the recruitment tier,
30 otherwise — and on successful completion the timestamp is recorded as
the current clock. -/
theorem claim_c7_telegram_pacing (recruitment : Bool) (L start : ℚ) (env : Env) :
    (sync_auth_flow "x" (some (telegram_recruitment_delay recruitment)) true true start
        (some L) env [⟨200, [], true⟩]).doneStatus = some 200 ∧
    (sync_auth_flow "x" (some (telegram_recruitment_delay recruitment)) true true start
        (some L) env [⟨200, [], true⟩]).state.sleeps
      = [max (L + telegram_recruitment_delay recruitment - start) 0] ∧
    (sync_auth_flow "x" (some (telegram_recruitment_delay recruitment)) true true start
        (some L) env [⟨200, [], true⟩]).state.dispatches
      = [start + max (L + telegram_recruitment_delay recruitment - start) 0] ∧
    L + telegram_recruitment_delay recruitment
      ≤ start + max (L + telegram_recruitment_delay recruitment - start) 0 ∧
    (sync_auth_flow "x" (some (telegram_recruitment_delay recruitment)) true true start
        (some L) env [⟨200, [], true⟩]).state.lastRequest
      = some (start + max (L + telegram_recruitment_delay recruitment - start) 0) ∧
    telegram_recruitment_delay true = 180 ∧ telegram_recruitment_delay false = 30 := by
  have h5 : response_hook_defer [] = none := by decide
  have harith : L + telegram_recruitment_delay recruitment
      ≤ start + max (L + telegram_recruitment_delay recruitment - start) 0 := by
    have := le_max_left (L + telegram_recruitment_delay recruitment - start) (0 : ℚ)
    linarith
  refine ⟨?_, ?_, ?_, harith, ?_, by simp [telegram_recruitment_delay],
      by simp [telegram_recruitment_delay]⟩ <;>
    simp only [sync_auth_flow, runLoop, finishFlow, FlowState.sleep, FlowState.enterApiLock,
      FlowState.releaseLocks, FlowState.hookDefer, Outcome.doneStatus, Outcome.state, h5,
      Option.isSome_none, Option.isSome_some, ne_eq, String.reduceEq, Int.reduceEq,
      reduceIte, Bool.false_eq_true, and_true, and_false, and_self, not_false_eq_true,
      not_true_eq_false, List.nil_append, ite_true, ite_false, or_self, false_or,
      or_false, true_or, or_true, Nat.reduceLT]

/-- C5 counterexample: two escalations with identical timing — both
begin at time 0, acquire the secondary slot at time 10, and observe a
concurrent secondary dispatch recorded at time 5, so the elapsed time
since the last known secondary dispatch is the same 5 units in both —
nevertheless wait by different tiers (to `5 + 30` in one, `5 + 180` in
the other) because the source selects the tier by comparing the 429's
`Retry-After` value against 30, not by comparing the elapsed time
against the two intervals; were the tier a function of the elapsed
time, the two waits would be equal. -/
theorem claim_c5_counterexample :
    (sync_auth_flow "x" none true true 0 none ⟨fun _ => 0, 10, some 5⟩
        [⟨429, [("Retry-After", "10"), ("Ratelimit-Remaining", "1")], true⟩,
          ⟨200, [], true⟩]).state.sleeps = [25] ∧
    (sync_auth_flow "x" none true true 0 none ⟨fun _ => 0, 10, some 5⟩
        [⟨429, [("Retry-After", "40"), ("Ratelimit-Remaining", "1")], true⟩,
          ⟨200, [], true⟩]).state.sleeps = [175] ∧
    (25 : ℚ) ≠ 175 := by
  have h1 : get_as_int [("Retry-After", "10"), ("Ratelimit-Remaining", "1")]
      "Retry-After" 0 = 10 := by decide
  have h2 : get_as_int [("Retry-After", "10"), ("Ratelimit-Remaining", "1")]
      "Ratelimit-Remaining" 0 = 1 := by decide
  have h3 : get_as_int [("Retry-After", "40"), ("Ratelimit-Remaining", "1")]
      "Retry-After" 0 = 40 := by decide
  have h4 : get_as_int [("Retry-After", "40"), ("Ratelimit-Remaining", "1")]
      "Ratelimit-Remaining" 0 = 1 := by decide
  have h5 : response_hook_defer [] = none := by decide
  refine ⟨?_, ?_, by norm_num⟩ <;>
    simp only [sync_auth_flow, runLoop, finishFlow, FlowState.sleep, FlowState.enterApiLock,
      FlowState.releaseLocks, FlowState.hookDefer, escalation_wait, Outcome.state,
      h1, h2, h3, h4, h5, Option.isSome_none, Option.isSome_some, ne_eq, String.reduceEq,
      Int.reduceEq, reduceIte, Bool.false_eq_true, and_true, and_false, and_self,
      not_false_eq_true, not_true_eq_false, List.nil_append, ite_true, ite_false,
      or_self, false_or, or_false, true_or, or_true, Nat.reduceLT] <;>
    norm_num

/-- C5 amended: when a 429 with nonzero `Retry-After` and nonzero
`Ratelimit-Remaining` (read with default 0) arrives on a call not
declared as secondary traffic, the governor tags the rest of the call as
secondary — the flow continues as a Telegram flow and records the
secondary last-dispatch timestamp on completion — and waits
`max(escalation_wait, 0)` where `escalation_wait` follows the source: if
a truthy secondary dispatch newer than the escalation start is recorded,
the tier interval (180 when the 429's retry-after exceeds 30, else 30)
is added to that dispatch time; otherwise — in particular whenever no
last-dispatch timestamp is known — the 429's own retry-after value,
measured from the escalation start, is the wait. -/
theorem claim_c5_escalation (hs : Headers) (retry remaining : Int) (env : Env) (start : ℚ)
    (hr : get_as_int hs "Retry-After" 0 = retry) (hr0 : retry ≠ 0)
    (hm : get_as_int hs "Ratelimit-Remaining" 0 = remaining) (hm0 : remaining ≠ 0) :
    (sync_auth_flow "x" none true true start none env
        [⟨429, hs, true⟩, ⟨200, [], true⟩]).doneStatus = some 200 ∧
    (sync_auth_flow "x" none true true start none env
        [⟨429, hs, true⟩, ⟨200, [], true⟩]).state.isTelegram = true ∧
    (sync_auth_flow "x" none true true start none env
        [⟨429, hs, true⟩, ⟨200, [], true⟩]).state.sleeps
      = [max (escalation_wait retry start (start + env.tgAcqDelay) env.lastDuring) 0] ∧
    (sync_auth_flow "x" none true true start none env
        [⟨429, hs, true⟩, ⟨200, [], true⟩]).state.dispatches.length = 2 ∧
    (sync_auth_flow "x" none true true start none env
        [⟨429, hs, true⟩, ⟨200, [], true⟩]).state.lastRequest
      = some (start + env.tgAcqDelay
          + max (escalation_wait retry start (start + env.tgAcqDelay) env.lastDuring) 0) ∧
    (env.lastDuring = none →
      escalation_wait retry start (start + env.tgAcqDelay) env.lastDuring
        = start + (retry : ℚ) - (start + env.tgAcqDelay)) := by
  have h5 : response_hook_defer [] = none := by decide
  refine ⟨?_, ?_, ?_, ?_, ?_, ?_⟩
  case refine_6 => intro hld; simp [escalation_wait, hld]
  all_goals
    simp only [sync_auth_flow, runLoop, finishFlow, FlowState.sleep, FlowState.enterApiLock,
      FlowState.releaseLocks, FlowState.hookDefer, Outcome.doneStatus, Outcome.state,
      h5, hr, hm, hr0, hm0, Option.isSome_none, Option.isSome_some, ne_eq,
      String.reduceEq, Int.reduceEq, reduceIte, Bool.false_eq_true, and_true, and_false,
      and_self, true_and, not_false_eq_true, not_true_eq_false, List.nil_append,
      List.length_cons, List.length_nil, List.singleton_append, List.cons_append,
      List.append_nil, List.length_append, ite_true, ite_false, or_self, false_or,
      or_false, true_or, or_true, Nat.reduceLT]

/-- Witness for C4 with every random draw equal to one half. -/
theorem claim_c4_witness :
    (sync_auth_flow "x" none true true 0 none ⟨fun _ => 1/2, 0, none⟩
        [⟨500, [], true⟩, ⟨502, [], true⟩, ⟨500, [], true⟩, ⟨502, [], true⟩,
          ⟨500, [], true⟩, ⟨500, [], true⟩, ⟨200, [], true⟩]).doneStatus = some 200 ∧
    (sync_auth_flow "x" none true true 0 none ⟨fun _ => 1/2, 0, none⟩
        [⟨500, [], true⟩, ⟨502, [], true⟩, ⟨500, [], true⟩, ⟨502, [], true⟩,
          ⟨500, [], true⟩, ⟨500, [], true⟩, ⟨200, [], true⟩]).state.dispatches.length = 7 ∧
    (sync_auth_flow "x" none true true 0 none ⟨fun _ => 1/2, 0, none⟩
        [⟨500, [], true⟩, ⟨502, [], true⟩, ⟨500, [], true⟩, ⟨502, [], true⟩,
          ⟨500, [], true⟩, ⟨500, [], true⟩, ⟨200, [], true⟩]).state.sleeps
      = [(1 / 2 : ℚ) * 2 ^ 0, (1 / 2 : ℚ) * 2 ^ 1, (1 / 2 : ℚ) * 2 ^ 2,
          (1 / 2 : ℚ) * 2 ^ 3, (1 / 2 : ℚ) * 2 ^ 4, (1 / 2 : ℚ) * 2 ^ 5] ∧
    (∀ i : Nat, 0 ≤ (1 / 2 : ℚ) * 2 ^ i ∧ (1 / 2 : ℚ) * 2 ^ i < 2 ^ i) ∧
    (sync_auth_flow "x" none true true 0 none ⟨fun _ => 1/2, 0, none⟩
        [⟨500, [], true⟩, ⟨500, [], true⟩, ⟨500, [], true⟩, ⟨500, [], true⟩,
          ⟨500, [], true⟩, ⟨500, [], true⟩, ⟨500, [], true⟩]).doneStatus = some 500 ∧
    (sync_auth_flow "x" none true true 0 none ⟨fun _ => 1/2, 0, none⟩
        [⟨500, [], true⟩, ⟨500, [], true⟩, ⟨500, [], true⟩, ⟨500, [], true⟩,
          ⟨500, [], true⟩, ⟨500, [], true⟩, ⟨500, [], true⟩]).state.sleeps.length = 6 :=
  claim_c4_backoff_bound (fun _ => 1 / 2) (fun _ => by norm_num)

/-- Witness for the amended C5 at the concrete escalation used in the
counterexample's second run. -/
theorem claim_c5_witness :
    (sync_auth_flow "x" none true true 0 none ⟨fun _ => 0, 10, some 5⟩
        [⟨429, [("Retry-After", "40"), ("Ratelimit-Remaining", "1")], true⟩,
          ⟨200, [], true⟩]).doneStatus = some 200 ∧
    (sync_auth_flow "x" none true true 0 none ⟨fun _ => 0, 10, some 5⟩
        [⟨429, [("Retry-After", "40"), ("Ratelimit-Remaining", "1")], true⟩,
          ⟨200, [], true⟩]).state.isTelegram = true ∧
    (sync_auth_flow "x" none true true 0 none ⟨fun _ => 0, 10, some 5⟩
        [⟨429, [("Retry-After", "40"), ("Ratelimit-Remaining", "1")], true⟩,
          ⟨200, [], true⟩]).state.sleeps
      = [max (escalation_wait 40 0 (0 + 10) (some 5)) 0] ∧
    (sync_auth_flow "x" none true true 0 none ⟨fun _ => 0, 10, some 5⟩
        [⟨429, [("Retry-After", "40"), ("Ratelimit-Remaining", "1")], true⟩,
          ⟨200, [], true⟩]).state.dispatches.length = 2 ∧
    (sync_auth_flow "x" none true true 0 none ⟨fun _ => 0, 10, some 5⟩
        [⟨429, [("Retry-After", "40"), ("Ratelimit-Remaining", "1")], true⟩,
          ⟨200, [], true⟩]).state.lastRequest
      = some (0 + 10 + max (escalation_wait 40 0 (0 + 10) (some 5)) 0) ∧
    ((some (5 : ℚ) = none) →
      escalation_wait 40 0 (0 + 10) (some 5) = 0 + ((40 : Int) : ℚ) - (0 + 10)) :=
  claim_c5_escalation [("Retry-After", "40"), ("Ratelimit-Remaining", "1")] 40 1
    ⟨fun _ => 0, 10, some 5⟩ 0 (by decide) (by decide) (by decide) (by decide)

end Sans
